import Mathlib

set_option maxHeartbeats 1000000

/-!
# Shallow embedding of the Trillectric load-handler core

This file embeds the core of the load handler — the `Queue` class
(`src/queue.js`) and the `StatusTracker` class
(`src/logic/statusTracker.js`) — as executable Lean definitions, and
proves the stated properties of the status state machine, the message
validator, the offline sweep and the bounded retry drain.

Modelling conventions:
* JavaScript numbers are modelled as `JSNum`: NaN or a finite rational.
  The code only ever compares a voltage against 50 and an integral
  millisecond difference, divided by 1000 and 60, against 2; at these
  magnitudes IEEE-754 doubles behave exactly like the rationals
  (the gap between adjacent integral millisecond inputs is many orders
  of magnitude larger than double rounding error), so ℚ is a faithful
  model of every comparison the code performs.
* `Date` instants are epoch-millisecond integers (`Int`); `toISOString`
  round-trips an instant, so enqueued timestamps are kept as instants.
  The JS `Date` parser is an external input and is modelled as a
  parameter `parse : String → Option Int`, `none` meaning Invalid Date.
* A JS `Map` is an insertion-ordered association list; `Map.set` on an
  existing key updates in place, on a fresh key appends.
* JS coercions that the code exercises are made explicit: a `null` date
  coerces to 0 under `-` and `<` (`Option.getD 0`), and any comparison
  with NaN is false.
* The random trace id attached by `Queue.enqueue` is used by no business
  logic and is omitted from the queue-item model.
-/

/-- A JavaScript number: NaN or a finite value, modelled as a rational. -/
inductive JSNum where
  | nan : JSNum
  | fin : ℚ → JSNum
deriving DecidableEq

/-- JS `a < b` on numbers: every comparison involving NaN is false. -/
def JSNum.jsLt : JSNum → JSNum → Bool
  | JSNum.fin a, JSNum.fin b => decide (a < b)
  | _, _ => false

/-- The JavaScript values the handler can receive. Objects are restricted
to the four payload fields the code destructures
(`device_id`, `timestamp`, `power_kw`, `voltage`); any other property is
never read and is irrelevant to the embedded behaviour. -/
inductive JSValue where
  | num : JSNum → JSValue
  | str : String → JSValue
  | boolV : Bool → JSValue
  | nullV : JSValue
  | undef : JSValue
  | obj : JSValue → JSValue → JSValue → JSValue → JSValue
deriving DecidableEq

/-- Lookup in an insertion-ordered association list (JS `Map.get`). -/
def alGet {α β : Type} [DecidableEq α] : List (α × β) → α → Option β
  | [], _ => none
  | (k1, v1) :: rest, k => if k1 = k then some v1 else alGet rest k

/-- Update/insert in an insertion-ordered association list (JS `Map.set`):
an existing key is updated in place, a fresh key is appended. -/
def alSet {α β : Type} [DecidableEq α] : List (α × β) → α → β → List (α × β)
  | [], k, v => [(k, v)]
  | (k1, v1) :: rest, k, v =>
    if k1 = k then (k1, v) :: rest else (k1, v1) :: alSet rest k v

/-- The telemetry payload as destructured by `processMessage`:
`const { device_id, timestamp, power_kw, voltage } = payload`. Each field
is an arbitrary JS value (missing properties destructure to `undefined`). -/
structure Payload where
  device_id : JSValue
  timestamp : JSValue
  power_kw : JSValue
  voltage : JSValue
deriving DecidableEq

/-- JS destructuring of a non-null, non-undefined value: an object yields
its properties, a primitive (number, string, boolean) has none of the four
properties, so all four fields destructure to `undefined`. -/
def payloadOf : JSValue → Payload
  | JSValue.obj d t pk v => ⟨d, t, pk, v⟩
  | _ => ⟨JSValue.undef, JSValue.undef, JSValue.undef, JSValue.undef⟩

/-- An item held by a `Queue` (src/queue.js): the enqueued record
`{deviceId, reason, timestamp}` (plus `retryAttempt` on re-enqueued
items), together with the `enqueuedAt` instant stamped by `enqueue`.
The random trace `id` is omitted (never read by any logic). -/
structure QueueItem where
  deviceId : JSValue
  reason : String
  timestamp : Int
  enqueuedAt : Int
  retryAttempt : Option Nat
deriving DecidableEq

/-- The state of a `Queue` (src/queue.js): name, pending items in FIFO
order, processed counter, and the per-key retry-count map. -/
structure QueueState where
  name : String
  items : List QueueItem
  processed : Nat
  retries : List (JSValue × Nat)
deriving DecidableEq

/-- Model of `new Queue(name)`. -/
def mkQueue (name : String) : QueueState := ⟨name, [], 0, []⟩

/-- Model of `Queue.enqueue(item)`: append to the tail, stamping `enqueuedAt`. -/
def QueueState.enqueue (q : QueueState) (now : Int) (deviceId : JSValue)
    (reason : String) (ts : Int) (retryAttempt : Option Nat) : QueueState :=
  { q with items := q.items ++ [⟨deviceId, reason, ts, now, retryAttempt⟩] }

/-- Model of `Queue.dequeue()`: `null` on an empty queue, else remove the head and
bump the processed counter. -/
def QueueState.dequeue (q : QueueState) : Option QueueItem × QueueState :=
  match q.items with
  | [] => (none, q)
  | it :: rest => (some it, { q with items := rest, processed := q.processed + 1 })

/-- Model of `Queue.size()`. -/
def QueueState.size (q : QueueState) : Nat := q.items.length

/-- Model of `Queue.getRetryCount(deviceId)`: stored count, 0 if unseen. -/
def QueueState.getRetryCount (q : QueueState) (deviceId : JSValue) : Nat :=
  (alGet q.retries deviceId).getD 0

/-- Model of `Queue.retry(deviceId, maxRetries)`: if the stored count is below the
cap, increment it and return true; else return false, leaving it alone. -/
def QueueState.retry (q : QueueState) (deviceId : JSValue) (maxRetries : Nat) :
    Bool × QueueState :=
  let currentRetries := q.getRetryCount deviceId
  if currentRetries < maxRetries then
    (true, { q with retries := alSet q.retries deviceId (currentRetries + 1) })
  else
    (false, q)

/-- Model of `Queue.clear()`. -/
def QueueState.clear (q : QueueState) : QueueState :=
  { q with items := [], processed := 0, retries := [] }

/-- The five device statuses of the tracker. -/
inductive Status where
  | UNKNOWN : Status
  | ONLINE : Status
  | OFFLINE : Status
  | FLAPPING : Status
  | FAULTY : Status
deriving DecidableEq

/-- Per-device record stored in the `devices` map of the tracker. `lastSeen`
and `statusChangedAt` are nullable `Date`s (epoch ms). -/
structure DeviceState where
  id : JSValue
  status : Status
  lastSeen : Option Int
  statusChangedAt : Option Int
  lastMessage : Option Payload
deriving DecidableEq

/-- The metric counters of the tracker (runtime/memory reporting is read-only
derived output and is not part of the core state). -/
structure Metrics where
  totalMessages : Nat
  fallbacks : Nat
  flapping : Nat
  faulty : Nat
  startTime : Int
deriving DecidableEq

/-- The whole `StatusTracker` state: device map plus the three queues and
the metric counters. -/
structure TrackerState where
  devices : List (JSValue × DeviceState)
  fallbackQueue : QueueState
  tamperCheckQueue : QueueState
  quarantineQueue : QueueState
  metrics : Metrics
deriving DecidableEq

/-- Model of `new StatusTracker()` at a given start instant. -/
def mkTracker (startTime : Int) : TrackerState :=
  ⟨[], mkQueue ("fallback"), mkQueue ("tamperCheck"), mkQueue ("quarantine"),
    ⟨0, 0, 0, 0, startTime⟩⟩

/-- The sentinel marking a corrupted timestamp. -/
def badTimestamp : String := "bad-timestamp"

/-- Reason string recorded when a device is marked OFFLINE. -/
def offlineReason : String := "No data for more than 5 minutes"

/-- Reason string recorded when a device is marked FLAPPING. -/
def flappingReason : String := "Device came online within 2 minutes of going offline"

/-- Reason string recorded when a device is marked FAULTY. -/
def faultyReason : String := "Invalid voltage or timestamp"

/-- Model of `isMessageFaulty(payload)`: voltage must be a number not below 50;
then the timestamp must be a string other than the sentinel; then it must
parse to a valid instant. Checks run in exactly this order and
short-circuit. `parse` models the JS `Date` parser. -/
def isMessageFaulty (parse : String → Option Int) (p : Payload) : Bool :=
  match p.voltage with
  | JSValue.num v =>
    if v.jsLt (JSNum.fin 50) then true
    else
      match p.timestamp with
      | JSValue.str s =>
        if s = badTimestamp then true
        else
          match parse s with
          | none => true
          | some _ => false
      | _ => true
  | _ => true

/-- Model of `new Date(timestamp).getTime()` for a message that passed validation:
its timestamp is a parseable string, so the defaults below are never
reached on the paths where this value is used. -/
def messageTimeOf (parse : String → Option Int) (p : Payload) : Int :=
  match p.timestamp with
  | JSValue.str s => (parse s).getD 0
  | _ => 0

/-- The record a fresh device is created with. -/
def freshDevice (deviceId : JSValue) : DeviceState :=
  ⟨deviceId, Status.UNKNOWN, none, none, none⟩

/-- Model of `getOrCreateDevice(deviceId)`: fetch the existing record, or append a
fresh UNKNOWN/null/null/null record for an unseen id. -/
def getOrCreateDevice (st : TrackerState) (deviceId : JSValue) :
    TrackerState × DeviceState :=
  match alGet st.devices deviceId with
  | some d => (st, d)
  | none =>
    ({ st with devices := st.devices ++ [(deviceId, freshDevice deviceId)] },
      freshDevice deviceId)

/-- Write back a (mutated-in-place in JS) device record. -/
def updateDevice (st : TrackerState) (deviceId : JSValue) (d : DeviceState) :
    TrackerState :=
  { st with devices := alSet st.devices deviceId d }

/-- Model of `handleOfflineDevice(deviceId)`: mark OFFLINE at the sweep instant,
enqueue onto the fallback queue, bump the `fallbacks` counter. -/
def handleOfflineDevice (now : Int) (st : TrackerState) (deviceId : JSValue) :
    TrackerState :=
  let pr := getOrCreateDevice st deviceId
  let st1 := updateDevice pr.1 deviceId
    { pr.2 with status := Status.OFFLINE, statusChangedAt := some now }
  let st2 := { st1 with
    fallbackQueue := st1.fallbackQueue.enqueue now deviceId offlineReason now none }
  { st2 with metrics := { st2.metrics with fallbacks := st2.metrics.fallbacks + 1 } }

/-- Model of `handleFlappingDevice(deviceId)`: mark FLAPPING at the processing
instant, enqueue onto the tamper-check queue, bump `flapping`. -/
def handleFlappingDevice (now : Int) (st : TrackerState) (deviceId : JSValue) :
    TrackerState :=
  let pr := getOrCreateDevice st deviceId
  let st1 := updateDevice pr.1 deviceId
    { pr.2 with status := Status.FLAPPING, statusChangedAt := some now }
  let st2 := { st1 with
    tamperCheckQueue := st1.tamperCheckQueue.enqueue now deviceId flappingReason now none }
  { st2 with metrics := { st2.metrics with flapping := st2.metrics.flapping + 1 } }

/-- Model of `handleFaultyDevice(deviceId, reason)`: mark FAULTY at the processing
instant, enqueue onto the quarantine queue, bump `faulty`. -/
def handleFaultyDevice (now : Int) (st : TrackerState) (deviceId : JSValue)
    (reason : String) : TrackerState :=
  let pr := getOrCreateDevice st deviceId
  let st1 := updateDevice pr.1 deviceId
    { pr.2 with status := Status.FAULTY, statusChangedAt := some now }
  let st2 := { st1 with
    quarantineQueue := st1.quarantineQueue.enqueue now deviceId reason now none }
  { st2 with metrics := { st2.metrics with faulty := st2.metrics.faulty + 1 } }

/-- Model of `processMessage(payload)` on an already-destructured payload, at wall
clock `now`. Mirrors statusTracker.js lines 22–60, including the JS
coercion `Date - null = Date - 0` in the offline-duration computation. -/
def processMessage (now : Int) (parse : String → Option Int) (p : Payload)
    (st : TrackerState) : TrackerState :=
  let st0 := { st with
    metrics := { st.metrics with totalMessages := st.metrics.totalMessages + 1 } }
  if isMessageFaulty parse p then
    handleFaultyDevice now st0 p.device_id faultyReason
  else
    let messageTime := messageTimeOf parse p
    let pr := getOrCreateDevice st0 p.device_id
    let d1 := { pr.2 with lastSeen := some messageTime, lastMessage := some p }
    if d1.status = Status.OFFLINE then
      let offlineDuration : ℚ :=
        (((messageTime - d1.statusChangedAt.getD 0 : Int) : ℚ) / 1000) / 60
      if offlineDuration ≤ 2 then
        handleFlappingDevice now (updateDevice pr.1 p.device_id d1) p.device_id
      else
        updateDevice pr.1 p.device_id
          { d1 with status := Status.ONLINE, statusChangedAt := some messageTime }
    else
      let d2 := { d1 with status := Status.ONLINE }
      let d3 := if d2.statusChangedAt = (none : Option Int)
        then { d2 with statusChangedAt := some messageTime } else d2
      updateDevice pr.1 p.device_id d3

/-- Error message of the TypeError raised by destructuring null/undefined. -/
def typeErrorMsg : String := "TypeError: cannot destructure a null or undefined payload"

/-- Model of `processMessage` as entered from JS with an arbitrary value: the
destructuring on line 25 throws a TypeError exactly on `null`/`undefined`;
every other value destructures (primitives yield all-`undefined` fields). -/
def processMessageJS (now : Int) (parse : String → Option Int) (payload : JSValue)
    (st : TrackerState) : Except String TrackerState :=
  match payload with
  | JSValue.nullV => Except.error typeErrorMsg
  | JSValue.undef => Except.error typeErrorMsg
  | v => Except.ok (processMessage now parse (payloadOf v) st)

/-- The per-device condition of the sweep: status ≠ OFFLINE and
`lastSeen < now - 5min`, with a null `lastSeen` coercing to 0 under the
JS relational comparison. -/
def offlineEligible (now : Int) (d : DeviceState) : Bool :=
  decide (d.status ≠ Status.OFFLINE) &&
    decide (d.lastSeen.getD 0 < now - 5 * 60 * 1000)

/-- One iteration of the `for..of` loop of the sweep over the device map. -/
def sweepStep (now : Int) (st : TrackerState) (deviceId : JSValue) : TrackerState :=
  match alGet st.devices deviceId with
  | some d => if offlineEligible now d then handleOfflineDevice now st deviceId else st
  | none => st

/-- Model of `checkOfflineDevices()` at sweep instant `now`: iterate over the
tracked devices in insertion order and transition each eligible one. -/
def checkOfflineDevices (now : Int) (st : TrackerState) : TrackerState :=
  List.foldl (sweepStep now) st (st.devices.map Prod.fst)

/-- The drain loop of `processFallbackRetries`: dequeue while the fallback
queue is non-empty and fewer than 100 items have been processed. The
dequeued item is never `null` under the loop guard, so `retryCount` is
incremented on every iteration. Scheduled (setTimeout) re-enqueues are
returned as a task list — they run after the call, never inside the loop. -/
def processFallbackRetriesAux (st : TrackerState) (retryCount : Nat)
    (sched : List QueueItem) : TrackerState × List QueueItem :=
  if hguard : retryCount < 100 then
    match st.fallbackQueue.items with
    | [] => (st, sched)
    | item :: rest =>
      let q1 : QueueState := { st.fallbackQueue with
        items := rest, processed := st.fallbackQueue.processed + 1 }
      let rr := q1.retry item.deviceId 3
      let st1 : TrackerState := { st with fallbackQueue := rr.2 }
      let sched1 := if rr.1 then sched ++ [item] else sched
      processFallbackRetriesAux st1 (retryCount + 1) sched1
  else
    (st, sched)
termination_by 100 - retryCount
decreasing_by omega

/-- Model of `processFallbackRetries()`: run the bounded drain from a fresh
per-call `retryCount` of 0, returning the post-call state together with
the delayed re-enqueue tasks scheduled during the call. -/
def processFallbackRetries (st : TrackerState) : TrackerState × List QueueItem :=
  processFallbackRetriesAux st 0 []

/-- Iterate `n` calls of `Queue.retry(deviceId, maxRetries)`. -/
def retryIter (q : QueueState) (deviceId : JSValue) (maxRetries : Nat) :
    Nat → QueueState
  | 0 => q
  | n + 1 => ((retryIter q deviceId maxRetries n).retry deviceId maxRetries).2

/-- How many of the first `n` calls of `Queue.retry(deviceId, maxRetries)`
returned true. -/
def trueCalls (q : QueueState) (deviceId : JSValue) (maxRetries : Nat) (n : Nat) :
    Nat :=
  (List.range n).countP
    (fun i => ((retryIter q deviceId maxRetries i).retry deviceId maxRetries).1)

/-- The fallback-queue item `handleOfflineDevice` enqueues at instant `now`. -/
def mkFallbackItem (now : Int) (deviceId : JSValue) : QueueItem :=
  ⟨deviceId, offlineReason, now, now, none⟩

/-- The tamper-check-queue item `handleFlappingDevice` enqueues. -/
def mkTamperItem (now : Int) (deviceId : JSValue) : QueueItem :=
  ⟨deviceId, flappingReason, now, now, none⟩

/-- The quarantine-queue item `handleFaultyDevice` enqueues from
`processMessage`. -/
def mkQuarantineItem (now : Int) (deviceId : JSValue) : QueueItem :=
  ⟨deviceId, faultyReason, now, now, none⟩

/-- Whether the key `deviceId` currently holds an offline-sweep-eligible
device in `st`. -/
def eligAt (now : Int) (st : TrackerState) (deviceId : JSValue) : Bool :=
  match alGet st.devices deviceId with
  | some d => offlineEligible now d
  | none => false

/-- Number of pending items of a queue carrying a given deviceId. -/
def deviceItemCount (q : QueueState) (deviceId : JSValue) : Nat :=
  q.items.countP (fun it => decide (it.deviceId = deviceId))

/-! ## Concrete fixtures used to instantiate the theorems -/

/-- A concrete device id. -/
def idA : JSValue := JSValue.str ("TRI_1")

/-- A concrete parseable timestamp string. -/
def tsGood : String := "2024-01-01T00:10:00.000Z"

/-- A concrete `Date` parser recognising `tsGood` as instant 600000. -/
def parseW : String → Option Int := fun s => if s = tsGood then some 600000 else none

/-- A valid payload: voltage 230, parseable timestamp. -/
def pW : Payload :=
  ⟨idA, JSValue.str tsGood, JSValue.num (JSNum.fin 5), JSValue.num (JSNum.fin 230)⟩

/-- A faulty payload: voltage 10 (below the 50 threshold). -/
def pLow : Payload :=
  ⟨idA, JSValue.str tsGood, JSValue.num (JSNum.fin 5), JSValue.num (JSNum.fin 10)⟩

/-- A payload with NaN voltage and a parseable timestamp. -/
def pNaN : Payload :=
  ⟨idA, JSValue.str tsGood, JSValue.num (JSNum.fin 5), JSValue.num JSNum.nan⟩

/-- A device that went OFFLINE 1 minute before the message instant 600000. -/
def dOffRecent : DeviceState := ⟨idA, Status.OFFLINE, some 0, some 540000, none⟩

/-- A device that went OFFLINE more than 8 minutes before instant 600000. -/
def dOffLong : DeviceState := ⟨idA, Status.OFFLINE, some 0, some 100000, none⟩

/-- An ONLINE device with `statusChangedAt` already set. -/
def dOnline : DeviceState := ⟨idA, Status.ONLINE, some 0, some 5, none⟩

/-- An ONLINE device whose `lastSeen` is far in the past. -/
def dStale : DeviceState := ⟨idA, Status.ONLINE, some 0, some 0, none⟩

/-- A tracker owning exactly the device `d` under key `idA`. -/
def stWith (d : DeviceState) : TrackerState :=
  { mkTracker 0 with devices := [(idA, d)] }

/-! ## Association-list lemmas (JS `Map` behaviour) -/

theorem alGet_alSet_self {α β : Type} [DecidableEq α] (l : List (α × β)) (k : α)
    (v : β) : alGet (alSet l k v) k = some v := by
  induction l with
  | nil => simp [alGet, alSet]
  | cons hd rest ih =>
    obtain ⟨k1, v1⟩ := hd
    by_cases hk : k1 = k
    · subst hk
      simp [alGet, alSet]
    · simp [alGet, alSet, hk, ih]

theorem alGet_alSet_ne {α β : Type} [DecidableEq α] (l : List (α × β)) (k k' : α)
    (v : β) (h : k' ≠ k) : alGet (alSet l k v) k' = alGet l k' := by
  induction l with
  | nil => simp [alGet, alSet, h.symm]
  | cons hd rest ih =>
    obtain ⟨k1, v1⟩ := hd
    by_cases hk : k1 = k
    · subst hk
      have hne : ¬ k1 = k' := fun hh => h hh.symm
      simp [alGet, alSet, hne]
    · simp only [alSet, if_neg hk]
      by_cases hk' : k1 = k'
      · subst hk'
        simp [alGet]
      · simp [alGet, hk', ih]

theorem alSet_keys {α β : Type} [DecidableEq α] (l : List (α × β)) (k : α)
    (v w : β) (h : alGet l k = some w) :
    (alSet l k v).map Prod.fst = l.map Prod.fst := by
  induction l with
  | nil => simp [alGet] at h
  | cons hd rest ih =>
    obtain ⟨k1, v1⟩ := hd
    by_cases hk : k1 = k
    · simp [alSet, hk]
    · simp [alGet, hk] at h
      simp [alSet, hk, ih h]

theorem alGet_mem_keys {α β : Type} [DecidableEq α] (l : List (α × β)) (k : α)
    (v : β) (h : alGet l k = some v) : k ∈ l.map Prod.fst := by
  induction l with
  | nil => simp [alGet] at h
  | cons hd rest ih =>
    obtain ⟨k1, v1⟩ := hd
    by_cases hk : k1 = k
    · simp [hk]
    · simp [alGet, hk] at h
      simp [ih h]

theorem alGet_append_left {α β : Type} [DecidableEq α] (l l2 : List (α × β))
    (k : α) (v : β) (h : alGet l k = some v) : alGet (l ++ l2) k = some v := by
  induction l with
  | nil => simp [alGet] at h
  | cons hd rest ih =>
    obtain ⟨k1, v1⟩ := hd
    by_cases hk : k1 = k
    · simp [alGet, hk] at h ⊢
      exact h
    · simp [alGet, hk] at h ⊢
      exact ih h

theorem alGet_append_right {α β : Type} [DecidableEq α] (l l2 : List (α × β))
    (k : α) (h : alGet l k = none) : alGet (l ++ l2) k = alGet l2 k := by
  induction l with
  | nil => simp
  | cons hd rest ih =>
    obtain ⟨k1, v1⟩ := hd
    by_cases hk : k1 = k
    · simp [alGet, hk] at h
    · simp [alGet, hk] at h ⊢
      exact ih h

/-! ## Path lemmas for `processMessage` -/

theorem pm_faulty_spec (now : Int) (parse : String → Option Int) (p : Payload)
    (st : TrackerState) (hf : isMessageFaulty parse p = true) :
    (∀ d, alGet st.devices p.device_id = some d →
      alGet (processMessage now parse p st).devices p.device_id =
        some { d with status := Status.FAULTY, statusChangedAt := some now })
    ∧ (alGet st.devices p.device_id = none →
      alGet (processMessage now parse p st).devices p.device_id =
        some { freshDevice p.device_id with
                 status := Status.FAULTY, statusChangedAt := some now })
    ∧ (processMessage now parse p st).quarantineQueue.items =
        st.quarantineQueue.items ++ [mkQuarantineItem now p.device_id]
    ∧ (processMessage now parse p st).metrics.faulty = st.metrics.faulty + 1
    ∧ (processMessage now parse p st).metrics.totalMessages =
        st.metrics.totalMessages + 1
    ∧ (processMessage now parse p st).metrics.fallbacks = st.metrics.fallbacks
    ∧ (processMessage now parse p st).metrics.flapping = st.metrics.flapping
    ∧ (processMessage now parse p st).fallbackQueue = st.fallbackQueue
    ∧ (processMessage now parse p st).tamperCheckQueue = st.tamperCheckQueue := by
  refine ⟨?_, ?_, ?_, ?_, ?_, ?_, ?_, ?_, ?_⟩ <;>
    simp only [processMessage, hf, if_true, handleFaultyDevice, getOrCreateDevice,
      updateDevice, QueueState.enqueue, mkQuarantineItem]
  · intro d hd
    simp only [hd, alGet_alSet_self]
  · intro hd
    simp only [hd]
    rw [alGet_alSet_self]
  · rcases hcase : alGet st.devices p.device_id with _ | d <;> simp [hcase]
  · rcases hcase : alGet st.devices p.device_id with _ | d <;> simp [hcase]
  · rcases hcase : alGet st.devices p.device_id with _ | d <;> simp [hcase]
  · rcases hcase : alGet st.devices p.device_id with _ | d <;> simp [hcase]
  · rcases hcase : alGet st.devices p.device_id with _ | d <;> simp [hcase]
  · rcases hcase : alGet st.devices p.device_id with _ | d <;> simp [hcase]
  · rcases hcase : alGet st.devices p.device_id with _ | d <;> simp [hcase]

theorem pm_offline_flap (now : Int) (parse : String → Option Int) (p : Payload)
    (st : TrackerState) (d : DeviceState)
    (hf : isMessageFaulty parse p = false)
    (hd : alGet st.devices p.device_id = some d)
    (hoff : d.status = Status.OFFLINE)
    (hle : (((messageTimeOf parse p - d.statusChangedAt.getD 0 : Int) : ℚ) / 1000) / 60 ≤ 2) :
    alGet (processMessage now parse p st).devices p.device_id =
      some { d with lastSeen := some (messageTimeOf parse p), lastMessage := some p,
                    status := Status.FLAPPING, statusChangedAt := some now }
    ∧ (processMessage now parse p st).tamperCheckQueue.items =
        st.tamperCheckQueue.items ++ [mkTamperItem now p.device_id]
    ∧ (processMessage now parse p st).metrics.flapping = st.metrics.flapping + 1
    ∧ (processMessage now parse p st).fallbackQueue = st.fallbackQueue
    ∧ (processMessage now parse p st).quarantineQueue = st.quarantineQueue
    ∧ (processMessage now parse p st).metrics.fallbacks = st.metrics.fallbacks
    ∧ (processMessage now parse p st).metrics.faulty = st.metrics.faulty := by
  refine ⟨?_, ?_, ?_, ?_, ?_, ?_, ?_⟩ <;>
    simp only [processMessage, hf, Bool.false_eq_true, if_false, getOrCreateDevice,
      hd, hoff, updateDevice, handleFlappingDevice, QueueState.enqueue, mkTamperItem,
      if_true, alGet_alSet_self, hle, if_pos]

theorem pm_offline_recover (now : Int) (parse : String → Option Int) (p : Payload)
    (st : TrackerState) (d : DeviceState)
    (hf : isMessageFaulty parse p = false)
    (hd : alGet st.devices p.device_id = some d)
    (hoff : d.status = Status.OFFLINE)
    (hgt : ¬ (((messageTimeOf parse p - d.statusChangedAt.getD 0 : Int) : ℚ) / 1000) / 60 ≤ 2) :
    alGet (processMessage now parse p st).devices p.device_id =
      some { d with lastSeen := some (messageTimeOf parse p), lastMessage := some p,
                    status := Status.ONLINE,
                    statusChangedAt := some (messageTimeOf parse p) }
    ∧ (processMessage now parse p st).tamperCheckQueue = st.tamperCheckQueue
    ∧ (processMessage now parse p st).fallbackQueue = st.fallbackQueue
    ∧ (processMessage now parse p st).quarantineQueue = st.quarantineQueue
    ∧ (processMessage now parse p st).metrics.flapping = st.metrics.flapping
    ∧ (processMessage now parse p st).metrics.fallbacks = st.metrics.fallbacks
    ∧ (processMessage now parse p st).metrics.faulty = st.metrics.faulty := by
  refine ⟨?_, ?_, ?_, ?_, ?_, ?_, ?_⟩ <;>
    simp only [processMessage, hf, Bool.false_eq_true, if_false, getOrCreateDevice,
      hd, hoff, updateDevice, if_true, hgt, alGet_alSet_self]

theorem pm_nonoffline (now : Int) (parse : String → Option Int) (p : Payload)
    (st : TrackerState) (d : DeviceState)
    (hf : isMessageFaulty parse p = false)
    (hd : alGet st.devices p.device_id = some d)
    (hnoff : d.status ≠ Status.OFFLINE) :
    alGet (processMessage now parse p st).devices p.device_id =
      some { d with lastSeen := some (messageTimeOf parse p), lastMessage := some p,
                    status := Status.ONLINE,
                    statusChangedAt :=
                      some (d.statusChangedAt.getD (messageTimeOf parse p)) }
    ∧ (processMessage now parse p st).tamperCheckQueue = st.tamperCheckQueue
    ∧ (processMessage now parse p st).fallbackQueue = st.fallbackQueue
    ∧ (processMessage now parse p st).quarantineQueue = st.quarantineQueue
    ∧ (processMessage now parse p st).metrics.flapping = st.metrics.flapping
    ∧ (processMessage now parse p st).metrics.fallbacks = st.metrics.fallbacks
    ∧ (processMessage now parse p st).metrics.faulty = st.metrics.faulty := by
  refine ⟨?_, ?_, ?_, ?_, ?_, ?_, ?_⟩ <;>
    simp only [processMessage, hf, Bool.false_eq_true, if_false, getOrCreateDevice,
      hd, updateDevice, if_neg hnoff, alGet_alSet_self] <;>
    rcases hsc : d.statusChangedAt with _ | t <;>
    simp [hsc, alGet_alSet_self]

theorem pm_new_device (now : Int) (parse : String → Option Int) (p : Payload)
    (st : TrackerState)
    (hf : isMessageFaulty parse p = false)
    (hd : alGet st.devices p.device_id = none) :
    alGet (processMessage now parse p st).devices p.device_id =
      some { freshDevice p.device_id with
               lastSeen := some (messageTimeOf parse p), lastMessage := some p,
               status := Status.ONLINE,
               statusChangedAt := some (messageTimeOf parse p) }
    ∧ (processMessage now parse p st).tamperCheckQueue = st.tamperCheckQueue
    ∧ (processMessage now parse p st).fallbackQueue = st.fallbackQueue
    ∧ (processMessage now parse p st).quarantineQueue = st.quarantineQueue := by
  refine ⟨?_, ?_, ?_, ?_⟩ <;>
    simp only [processMessage, hf, Bool.false_eq_true, if_false, getOrCreateDevice,
      hd, updateDevice, freshDevice, alGet_alSet_self] <;>
    simp [alGet_alSet_self]

/-! ## Lemmas for the offline sweep -/

theorem handleOffline_spec (now : Int) (st : TrackerState) (k : JSValue)
    (d : DeviceState) (hd : alGet st.devices k = some d) :
    (handleOfflineDevice now st k).devices =
      alSet st.devices k { d with status := Status.OFFLINE, statusChangedAt := some now }
    ∧ (handleOfflineDevice now st k).fallbackQueue.items =
        st.fallbackQueue.items ++ [mkFallbackItem now k]
    ∧ (handleOfflineDevice now st k).metrics.fallbacks = st.metrics.fallbacks + 1
    ∧ (handleOfflineDevice now st k).tamperCheckQueue = st.tamperCheckQueue
    ∧ (handleOfflineDevice now st k).quarantineQueue = st.quarantineQueue
    ∧ (handleOfflineDevice now st k).metrics.flapping = st.metrics.flapping
    ∧ (handleOfflineDevice now st k).metrics.faulty = st.metrics.faulty
    ∧ (handleOfflineDevice now st k).metrics.totalMessages = st.metrics.totalMessages
    ∧ (handleOfflineDevice now st k).fallbackQueue.retries = st.fallbackQueue.retries
    ∧ (handleOfflineDevice now st k).fallbackQueue.processed = st.fallbackQueue.processed := by
  refine ⟨?_, ?_, ?_, ?_, ?_, ?_, ?_, ?_, ?_, ?_⟩ <;>
    simp [handleOfflineDevice, getOrCreateDevice, hd, updateDevice,
      QueueState.enqueue, mkFallbackItem]

theorem sweepStep_of_elig (now : Int) (st : TrackerState) (k : JSValue)
    (h : eligAt now st k = true) :
    sweepStep now st k = handleOfflineDevice now st k := by
  unfold eligAt at h
  unfold sweepStep
  rcases hd : alGet st.devices k with _ | d <;> simp [hd] at h ⊢
  simp [h]

theorem sweepStep_of_not_elig (now : Int) (st : TrackerState) (k : JSValue)
    (h : eligAt now st k = false) :
    sweepStep now st k = st := by
  unfold eligAt at h
  unfold sweepStep
  rcases hd : alGet st.devices k with _ | d <;> simp [hd] at h ⊢
  simp [h]

theorem sweepStep_get_ne (now : Int) (st : TrackerState) (k k' : JSValue)
    (h : k' ≠ k) :
    alGet (sweepStep now st k).devices k' = alGet st.devices k' := by
  unfold sweepStep
  rcases hd : alGet st.devices k with _ | d
  · rfl
  · by_cases he : offlineEligible now d
    · simp only [he, if_true]
      rw [(handleOffline_spec now st k d hd).1, alGet_alSet_ne _ _ _ _ h]
    · simp [he]

theorem sweepStep_keys (now : Int) (st : TrackerState) (k : JSValue) :
    (sweepStep now st k).devices.map Prod.fst = st.devices.map Prod.fst := by
  unfold sweepStep
  rcases hd : alGet st.devices k with _ | d
  · rfl
  · by_cases he : offlineEligible now d
    · simp only [he, if_true]
      rw [(handleOffline_spec now st k d hd).1]
      exact alSet_keys _ _ _ _ hd
    · simp [he]

theorem sweepFold_keys (now : Int) (ks : List JSValue) :
    ∀ st : TrackerState,
      (List.foldl (sweepStep now) st ks).devices.map Prod.fst =
        st.devices.map Prod.fst := by
  induction ks with
  | nil => intro st; rfl
  | cons a rest ih =>
    intro st
    simp only [List.foldl_cons]
    rw [ih, sweepStep_keys]

theorem sweepFold_get_not_mem (now : Int) (ks : List JSValue) :
    ∀ (st : TrackerState) (k : JSValue), k ∉ ks →
      alGet (List.foldl (sweepStep now) st ks).devices k = alGet st.devices k := by
  induction ks with
  | nil => intro st k _; rfl
  | cons a rest ih =>
    intro st k hk
    simp only [List.mem_cons, not_or] at hk
    simp only [List.foldl_cons]
    rw [ih _ _ hk.2, sweepStep_get_ne _ _ _ _ hk.1]

theorem sweepFold_get (now : Int) (ks : List JSValue) :
    ∀ (st : TrackerState) (k : JSValue) (d : DeviceState),
      ks.Nodup → k ∈ ks → alGet st.devices k = some d →
      alGet (List.foldl (sweepStep now) st ks).devices k =
        some (if offlineEligible now d
              then { d with status := Status.OFFLINE, statusChangedAt := some now }
              else d) := by
  induction ks with
  | nil => intro st k d _ hmem; simp at hmem
  | cons a rest ih =>
    intro st k d hnd hmem hd
    have hnd1 : a ∉ rest := (List.nodup_cons.mp hnd).1
    have hnd2 : rest.Nodup := (List.nodup_cons.mp hnd).2
    simp only [List.foldl_cons]
    rcases List.mem_cons.mp hmem with hka | hkr
    · subst hka
      have hstep : alGet (sweepStep now st k).devices k =
          some (if offlineEligible now d
                then { d with status := Status.OFFLINE, statusChangedAt := some now }
                else d) := by
        unfold sweepStep
        rw [hd]
        by_cases he : offlineEligible now d
        · simp only [he, if_true]
          rw [(handleOffline_spec now st k d hd).1]
          exact alGet_alSet_self _ _ _
        · simp [he, hd]
      rw [sweepFold_get_not_mem now rest _ _ hnd1, hstep]
    · have hka : k ≠ a := fun hh => hnd1 (hh ▸ hkr)
      have hstep := sweepStep_get_ne now st a k hka
      exact ih (sweepStep now st a) k d hnd2 hkr (hstep.trans hd)

theorem eligAt_sweepStep_ne (now : Int) (st : TrackerState) (a k : JSValue)
    (h : k ≠ a) : eligAt now (sweepStep now st a) k = eligAt now st k := by
  unfold eligAt
  rw [sweepStep_get_ne now st a k h]

theorem sweepFold_queue (now : Int) (ks : List JSValue) :
    ∀ st : TrackerState, ks.Nodup →
      (List.foldl (sweepStep now) st ks).fallbackQueue.items =
        st.fallbackQueue.items ++
          (ks.filter (eligAt now st)).map (fun k => mkFallbackItem now k)
      ∧ (List.foldl (sweepStep now) st ks).metrics.fallbacks =
          st.metrics.fallbacks + (ks.filter (eligAt now st)).length := by
  induction ks with
  | nil => intro st _; simp
  | cons a rest ih =>
    intro st hnd
    have hnd1 : a ∉ rest := (List.nodup_cons.mp hnd).1
    have hnd2 : rest.Nodup := (List.nodup_cons.mp hnd).2
    simp only [List.foldl_cons]
    by_cases he : eligAt now st a
    · have hstep : sweepStep now st a = handleOfflineDevice now st a :=
        sweepStep_of_elig now st a he
      obtain ⟨d, hd⟩ : ∃ d, alGet st.devices a = some d := by
        unfold eligAt at he
        rcases hda : alGet st.devices a with _ | d
        · rw [hda] at he; simp at he
        · exact ⟨d, rfl⟩
      have hspec := handleOffline_spec now st a d hd
      have hfilter : rest.filter (eligAt now (sweepStep now st a)) =
          rest.filter (eligAt now st) := by
        apply List.filter_congr
        intro k hk
        exact eligAt_sweepStep_ne now st a k (fun hh => hnd1 (hh ▸ hk))
      obtain ⟨hitems, hcount⟩ := ih (sweepStep now st a) hnd2
      rw [hfilter] at hitems hcount
      constructor
      · rw [hitems, hstep, hspec.2.1]
        simp [he, List.filter_cons]
      · rw [hcount, hstep, hspec.2.2.1]
        simp [he, List.filter_cons]
        omega
    · have hstep : sweepStep now st a = st := sweepStep_of_not_elig now st a
        (by simpa using he)
      obtain ⟨hitems, hcount⟩ := ih st hnd2
      rw [hstep]
      constructor
      · rw [hitems]
        simp [List.filter_cons, he]
      · rw [hcount]
        simp [List.filter_cons, he]

/-! ## Lemmas for the retry counter and the bounded drain -/

theorem retry_step_spec (q : QueueState) (k : JSValue) (m : Nat) :
    ((q.retry k m).1 = decide (q.getRetryCount k < m))
    ∧ ((q.retry k m).2.getRetryCount k =
        if q.getRetryCount k < m then q.getRetryCount k + 1 else q.getRetryCount k)
    ∧ ((q.retry k m).2.items = q.items)
    ∧ ((q.retry k m).2.processed = q.processed) := by
  unfold QueueState.retry QueueState.getRetryCount
  by_cases h : (alGet q.retries k).getD 0 < m <;>
    simp [h, alGet_alSet_self]

theorem retryIter_count (q : QueueState) (k : JSValue)
    (h : q.getRetryCount k = 0) :
    ∀ n, (retryIter q k 3 n).getRetryCount k = min n 3 := by
  intro n
  induction n with
  | zero => simpa [retryIter]
  | succ n ih =>
    have hstep := (retry_step_spec (retryIter q k 3 n) k 3).2.1
    rw [ih] at hstep
    simp only [retryIter, hstep]
    by_cases hn : min n 3 < 3 <;> simp [hn] <;> omega

theorem retryIter_result (q : QueueState) (k : JSValue)
    (h : q.getRetryCount k = 0) :
    ∀ n, ((retryIter q k 3 n).retry k 3).1 = decide (n < 3) := by
  intro n
  have hstep := (retry_step_spec (retryIter q k 3 n) k 3).1
  rw [retryIter_count q k h n] at hstep
  rw [hstep]
  by_cases hn : n < 3
  · have hm : min n 3 < 3 := by omega
    simp [hn, hm]
  · have hm : ¬ min n 3 < 3 := by omega
    simp [hn, hm]

theorem trueCalls_eq (q : QueueState) (k : JSValue)
    (h : q.getRetryCount k = 0) :
    ∀ n, trueCalls q k 3 n = min n 3 := by
  intro n
  induction n with
  | zero => simp [trueCalls]
  | succ n ih =>
    unfold trueCalls at ih ⊢
    simp only [List.range_succ, List.countP_append, List.countP_cons, List.countP_nil]
    rw [ih, retryIter_result q k h n]
    by_cases hn : n < 3 <;> simp [hn] <;> omega

theorem drain_spec :
    ∀ (n : Nat) (st : TrackerState) (rc : Nat) (sched : List QueueItem),
      100 - rc = n →
      (processFallbackRetriesAux st rc sched).1.fallbackQueue.items =
        st.fallbackQueue.items.drop n
      ∧ (processFallbackRetriesAux st rc sched).1.fallbackQueue.processed =
        st.fallbackQueue.processed + min st.fallbackQueue.items.length n := by
  intro n
  induction n with
  | zero =>
    intro st rc sched hrc
    have h100 : ¬ rc < 100 := by omega
    rw [processFallbackRetriesAux]
    simp [h100]
  | succ n ih =>
    intro st rc sched hrc
    have h100 : rc < 100 := by omega
    rw [processFallbackRetriesAux]
    simp only [h100, dif_pos]
    rcases hitems : st.fallbackQueue.items with _ | ⟨item, rest⟩
    · simp [hitems]
    · simp only []
      set q1 : QueueState := { st.fallbackQueue with
        items := rest, processed := st.fallbackQueue.processed + 1 } with hq1
      obtain ⟨hi, hp⟩ := ih
        { st with fallbackQueue := (q1.retry item.deviceId 3).2 }
        (rc + 1)
        (if (q1.retry item.deviceId 3).1 then sched ++ [item] else sched)
        (by omega)
      have hqi : (q1.retry item.deviceId 3).2.items = rest :=
        (retry_step_spec q1 item.deviceId 3).2.2.1
      have hqp : (q1.retry item.deviceId 3).2.processed =
          st.fallbackQueue.processed + 1 :=
        (retry_step_spec q1 item.deviceId 3).2.2.2
      rw [hqi] at hi
      rw [hqi, hqp] at hp
      constructor
      · rw [hi]
        rfl
      · rw [hp]
        simp only [List.length_cons, Nat.succ_min_succ]
        omega

theorem countP_key_filter_zero (ks : List JSValue) (did : JSValue)
    (q : JSValue → Bool) (hq : q did = false) :
    (ks.filter q).countP (fun k => decide (k = did)) = 0 := by
  apply List.countP_eq_zero.mpr
  intro a ha
  obtain ⟨_, hqa⟩ := List.mem_filter.mp ha
  simp only [decide_eq_true_eq]
  intro heq
  rw [heq, hq] at hqa
  exact Bool.false_ne_true hqa

theorem countP_key_filter_one (ks : List JSValue) (did : JSValue)
    (q : JSValue → Bool) (hnd : ks.Nodup) (hmem : did ∈ ks) (hq : q did = true) :
    (ks.filter q).countP (fun k => decide (k = did)) = 1 := by
  induction ks with
  | nil => simp at hmem
  | cons a rest ih =>
    have hnd1 : a ∉ rest := (List.nodup_cons.mp hnd).1
    have hnd2 : rest.Nodup := (List.nodup_cons.mp hnd).2
    rcases List.mem_cons.mp hmem with hda | hdr
    · subst hda
      rw [List.filter_cons, if_pos (by simpa using hq)]
      rw [List.countP_cons]
      have hzero : (rest.filter q).countP (fun k => decide (k = did)) = 0 := by
        apply List.countP_eq_zero.mpr
        intro x hx
        obtain ⟨hxr, _⟩ := List.mem_filter.mp hx
        simp only [decide_eq_true_eq]
        intro heq
        exact hnd1 (heq ▸ hxr)
      simp [hzero]
    · have hda : did ≠ a := fun hh => hnd1 (hh ▸ hdr)
      rw [List.filter_cons]
      by_cases hqa : q a
      · rw [if_pos (by simpa using hqa), List.countP_cons]
        have hne : ¬ a = did := fun hh => hda hh.symm
        simp [hne, ih hnd2 hdr]
      · rw [if_neg (by simpa using hqa)]
        exact ih hnd2 hdr

/-! ## The claims -/

/-- Claim C1: for a valid message on an OFFLINE device, elapsed time (per
the minutes computation of the code) at most 2 minutes gives the FLAPPING path
(status FLAPPING, `statusChangedAt` = wall-clock now, exactly one item
appended to the tamper-check queue, `flapping` incremented by one), and
elapsed more than 2 minutes gives normal recovery (status ONLINE,
`statusChangedAt` = message timestamp, no queue appended, `flapping`
unchanged). -/
theorem claim_C1 (now : Int) (parse : String → Option Int) (p : Payload)
    (st : TrackerState) (d : DeviceState)
    (hvalid : isMessageFaulty parse p = false)
    (hd : alGet st.devices p.device_id = some d)
    (hoff : d.status = Status.OFFLINE) :
    ((((messageTimeOf parse p - d.statusChangedAt.getD 0 : Int) : ℚ) / 1000) / 60 ≤ 2 →
      alGet (processMessage now parse p st).devices p.device_id =
        some { d with lastSeen := some (messageTimeOf parse p),
                      lastMessage := some p,
                      status := Status.FLAPPING, statusChangedAt := some now }
      ∧ (processMessage now parse p st).tamperCheckQueue.items =
          st.tamperCheckQueue.items ++ [mkTamperItem now p.device_id]
      ∧ (processMessage now parse p st).metrics.flapping =
          st.metrics.flapping + 1)
    ∧ (¬ (((messageTimeOf parse p - d.statusChangedAt.getD 0 : Int) : ℚ) / 1000) / 60 ≤ 2 →
      alGet (processMessage now parse p st).devices p.device_id =
        some { d with lastSeen := some (messageTimeOf parse p),
                      lastMessage := some p,
                      status := Status.ONLINE,
                      statusChangedAt := some (messageTimeOf parse p) }
      ∧ (processMessage now parse p st).tamperCheckQueue = st.tamperCheckQueue
      ∧ (processMessage now parse p st).fallbackQueue = st.fallbackQueue
      ∧ (processMessage now parse p st).quarantineQueue = st.quarantineQueue
      ∧ (processMessage now parse p st).metrics.flapping = st.metrics.flapping) := by
  constructor
  · intro hle
    obtain ⟨h1, h2, h3, _⟩ := pm_offline_flap now parse p st d hvalid hd hoff hle
    exact ⟨h1, h2, h3⟩
  · intro hgt
    obtain ⟨h1, h2, h3, h4, h5, _⟩ :=
      pm_offline_recover now parse p st d hvalid hd hoff hgt
    exact ⟨h1, h2, h3, h4, h5⟩

/-- Witness for C1 at concrete inputs: a device that went OFFLINE at
instant 540000 receiving a valid message with timestamp 600000 (elapsed
1 minute, the FLAPPING side applies). -/
theorem claim_C1_witness :
    isMessageFaulty parseW pW = false
    ∧ alGet (stWith dOffRecent).devices pW.device_id = some dOffRecent
    ∧ dOffRecent.status = Status.OFFLINE
    ∧ (((((messageTimeOf parseW pW - dOffRecent.statusChangedAt.getD 0 : Int) : ℚ) / 1000) / 60 ≤ 2 →
        alGet (processMessage 600000 parseW pW (stWith dOffRecent)).devices pW.device_id =
          some { dOffRecent with
                   lastSeen := some (messageTimeOf parseW pW),
                   lastMessage := some pW,
                   status := Status.FLAPPING, statusChangedAt := some 600000 }
        ∧ (processMessage 600000 parseW pW (stWith dOffRecent)).tamperCheckQueue.items =
            (stWith dOffRecent).tamperCheckQueue.items ++ [mkTamperItem 600000 pW.device_id]
        ∧ (processMessage 600000 parseW pW (stWith dOffRecent)).metrics.flapping =
            (stWith dOffRecent).metrics.flapping + 1)
      ∧ (¬ ((((messageTimeOf parseW pW - dOffRecent.statusChangedAt.getD 0 : Int) : ℚ) / 1000) / 60 ≤ 2) →
        alGet (processMessage 600000 parseW pW (stWith dOffRecent)).devices pW.device_id =
          some { dOffRecent with
                   lastSeen := some (messageTimeOf parseW pW),
                   lastMessage := some pW,
                   status := Status.ONLINE,
                   statusChangedAt := some (messageTimeOf parseW pW) }
        ∧ (processMessage 600000 parseW pW (stWith dOffRecent)).tamperCheckQueue =
            (stWith dOffRecent).tamperCheckQueue
        ∧ (processMessage 600000 parseW pW (stWith dOffRecent)).fallbackQueue =
            (stWith dOffRecent).fallbackQueue
        ∧ (processMessage 600000 parseW pW (stWith dOffRecent)).quarantineQueue =
            (stWith dOffRecent).quarantineQueue
        ∧ (processMessage 600000 parseW pW (stWith dOffRecent)).metrics.flapping =
            (stWith dOffRecent).metrics.flapping)) :=
  ⟨by decide, by decide, by decide,
    claim_C1 600000 parseW pW (stWith dOffRecent) dOffRecent
      (by decide) (by decide) (by decide)⟩

/-- Claim C2: `isMessageFaulty` returns false on every message with a
finite numeric voltage at least 50 and a parseable, non-sentinel string
timestamp; it returns true whenever the voltage is a number below 50, the
voltage is not a number, the timestamp is the sentinel string, the
timestamp is not a string, or the timestamp fails to parse (the definition
evaluates the checks in exactly that order). -/
theorem claim_C2 (parse : String → Option Int) (p : Payload) :
    (∀ v s, p.voltage = JSValue.num (JSNum.fin v) → (50 : ℚ) ≤ v →
      p.timestamp = JSValue.str s → s ≠ badTimestamp → (parse s).isSome →
      isMessageFaulty parse p = false)
    ∧ (∀ v, p.voltage = JSValue.num (JSNum.fin v) → v < (50 : ℚ) →
      isMessageFaulty parse p = true)
    ∧ ((∀ n, p.voltage ≠ JSValue.num n) → isMessageFaulty parse p = true)
    ∧ (p.timestamp = JSValue.str badTimestamp → isMessageFaulty parse p = true)
    ∧ ((∀ s, p.timestamp ≠ JSValue.str s) → isMessageFaulty parse p = true)
    ∧ (∀ s, p.timestamp = JSValue.str s → parse s = none →
      isMessageFaulty parse p = true) := by
  obtain ⟨dID, ts, pk, vol⟩ := p
  refine ⟨?_, ?_, ?_, ?_, ?_, ?_⟩
  · intro v s hv hge hts hsent hparse
    simp only at hv hts
    subst hv
    subst hts
    rcases Option.isSome_iff_exists.mp hparse with ⟨t, ht⟩
    have hnlt : ¬ v < 50 := not_lt.mpr hge
    simp [isMessageFaulty, JSNum.jsLt, hnlt, hsent, ht]
  · intro v hv hlt
    simp only at hv
    subst hv
    simp [isMessageFaulty, JSNum.jsLt, hlt]
  · intro hnum
    rcases vol with n | s | b | - | - | ⟨a1, a2, a3, a4⟩
    · exact absurd rfl (hnum n)
    · simp [isMessageFaulty]
    · simp [isMessageFaulty]
    · simp [isMessageFaulty]
    · simp [isMessageFaulty]
    · simp [isMessageFaulty]
  · intro hts
    simp only at hts
    subst hts
    rcases vol with n | s | b | - | - | ⟨a1, a2, a3, a4⟩ <;>
      simp [isMessageFaulty]
  · intro hns
    rcases vol with n | s2 | b | - | - | ⟨a1, a2, a3, a4⟩ <;>
      simp [isMessageFaulty, hns]
  · intro s hts hparse
    simp only at hts
    subst hts
    rcases vol with n | s2 | b | - | - | ⟨a1, a2, a3, a4⟩ <;>
      simp [isMessageFaulty]
    rcases n with - | v
    · by_cases hsent : s = badTimestamp <;> simp [JSNum.jsLt, hsent, hparse]
    · by_cases hlt : v < 50
      · simp [JSNum.jsLt, hlt]
      · by_cases hsent : s = badTimestamp <;>
          simp [JSNum.jsLt, hlt, hsent, hparse]

/-- Witness for C2 at concrete payloads: a valid message with voltage 230
is not faulty, and a message with voltage 10 is faulty. -/
theorem claim_C2_witness :
    isMessageFaulty parseW pW = false ∧ isMessageFaulty parseW pLow = true :=
  ⟨(claim_C2 parseW pW).1 230 tsGood (by decide) (by norm_num) (by decide)
      (by decide) (by decide),
    (claim_C2 parseW pLow).2.1 10 (by decide) (by norm_num)⟩

/-- Claim C4: a payload classified faulty makes `processMessage` create
the device record if absent, set status FAULTY with `statusChangedAt` =
now, append exactly one `{deviceId, reason, timestamp}` item to the
quarantine queue, increment the `faulty` counter by exactly one, and
perform no further state update: `lastSeen` and `lastMessage` keep their
previous values (still unset on a freshly created record) and the other
queues and counters are untouched. -/
theorem claim_C4 (now : Int) (parse : String → Option Int) (p : Payload)
    (st : TrackerState) (hf : isMessageFaulty parse p = true) :
    (alGet st.devices p.device_id = none →
      alGet (processMessage now parse p st).devices p.device_id =
        some { freshDevice p.device_id with
                 status := Status.FAULTY, statusChangedAt := some now })
    ∧ (∀ d, alGet st.devices p.device_id = some d →
      alGet (processMessage now parse p st).devices p.device_id =
        some { d with status := Status.FAULTY, statusChangedAt := some now })
    ∧ (processMessage now parse p st).quarantineQueue.items =
        st.quarantineQueue.items ++ [mkQuarantineItem now p.device_id]
    ∧ (processMessage now parse p st).metrics.faulty = st.metrics.faulty + 1
    ∧ (processMessage now parse p st).fallbackQueue = st.fallbackQueue
    ∧ (processMessage now parse p st).tamperCheckQueue = st.tamperCheckQueue
    ∧ (processMessage now parse p st).metrics.fallbacks = st.metrics.fallbacks
    ∧ (processMessage now parse p st).metrics.flapping = st.metrics.flapping := by
  obtain ⟨h1, h2, h3, h4, _, h6, h7, h8, h9⟩ := pm_faulty_spec now parse p st hf
  exact ⟨h2, h1, h3, h4, h8, h9, h6, h7⟩

/-- Witness for C4 at concrete inputs: the low-voltage payload on an
empty tracker. -/
theorem claim_C4_witness :
    isMessageFaulty parseW pLow = true
    ∧ ((alGet (mkTracker 0).devices pLow.device_id = none →
        alGet (processMessage 600000 parseW pLow (mkTracker 0)).devices pLow.device_id =
          some { freshDevice pLow.device_id with
                   status := Status.FAULTY, statusChangedAt := some 600000 })
      ∧ (∀ d, alGet (mkTracker 0).devices pLow.device_id = some d →
        alGet (processMessage 600000 parseW pLow (mkTracker 0)).devices pLow.device_id =
          some { d with status := Status.FAULTY, statusChangedAt := some 600000 })
      ∧ (processMessage 600000 parseW pLow (mkTracker 0)).quarantineQueue.items =
          (mkTracker 0).quarantineQueue.items ++ [mkQuarantineItem 600000 pLow.device_id]
      ∧ (processMessage 600000 parseW pLow (mkTracker 0)).metrics.faulty =
          (mkTracker 0).metrics.faulty + 1
      ∧ (processMessage 600000 parseW pLow (mkTracker 0)).fallbackQueue =
          (mkTracker 0).fallbackQueue
      ∧ (processMessage 600000 parseW pLow (mkTracker 0)).tamperCheckQueue =
          (mkTracker 0).tamperCheckQueue
      ∧ (processMessage 600000 parseW pLow (mkTracker 0)).metrics.fallbacks =
          (mkTracker 0).metrics.fallbacks
      ∧ (processMessage 600000 parseW pLow (mkTracker 0)).metrics.flapping =
          (mkTracker 0).metrics.flapping) :=
  ⟨by decide, claim_C4 600000 parseW pLow (mkTracker 0) (by decide)⟩

/-- Claim C5: a valid message for a tracked device whose status is not
OFFLINE sets status ONLINE and assigns `statusChangedAt` = the message
timestamp only when it was previously unset, leaving it unchanged on
every later call through this branch; recovery from OFFLINE, by contrast,
always reassigns `statusChangedAt` (to the wall clock on the FLAPPING
side, to the message timestamp on normal recovery). -/
theorem claim_C5 (now : Int) (parse : String → Option Int) (p : Payload)
    (st : TrackerState) (d : DeviceState)
    (hvalid : isMessageFaulty parse p = false)
    (hd : alGet st.devices p.device_id = some d) :
    (d.status ≠ Status.OFFLINE →
      alGet (processMessage now parse p st).devices p.device_id =
        some { d with lastSeen := some (messageTimeOf parse p),
                      lastMessage := some p,
                      status := Status.ONLINE,
                      statusChangedAt :=
                        some (d.statusChangedAt.getD (messageTimeOf parse p)) })
    ∧ (d.status ≠ Status.OFFLINE → ∀ t, d.statusChangedAt = some t →
      ∃ e, alGet (processMessage now parse p st).devices p.device_id = some e
        ∧ e.statusChangedAt = some t)
    ∧ (d.status = Status.OFFLINE →
      ∃ e, alGet (processMessage now parse p st).devices p.device_id = some e
        ∧ (e.statusChangedAt = some now
           ∨ e.statusChangedAt = some (messageTimeOf parse p))) := by
  refine ⟨?_, ?_, ?_⟩
  · intro hnoff
    exact (pm_nonoffline now parse p st d hvalid hd hnoff).1
  · intro hnoff t ht
    refine ⟨_, (pm_nonoffline now parse p st d hvalid hd hnoff).1, ?_⟩
    simp [ht]
  · intro hoff
    by_cases hle :
      (((messageTimeOf parse p - d.statusChangedAt.getD 0 : Int) : ℚ) / 1000) / 60 ≤ 2
    · exact ⟨_, (pm_offline_flap now parse p st d hvalid hd hoff hle).1,
        Or.inl rfl⟩
    · exact ⟨_, (pm_offline_recover now parse p st d hvalid hd hoff hle).1,
        Or.inr rfl⟩

/-- Witness for C5 at concrete inputs: an ONLINE device with
`statusChangedAt` already set to instant 5 keeps it after a valid
message. -/
theorem claim_C5_witness :
    isMessageFaulty parseW pW = false
    ∧ alGet (stWith dOnline).devices pW.device_id = some dOnline
    ∧ (dOnline.status ≠ Status.OFFLINE →
        alGet (processMessage 600000 parseW pW (stWith dOnline)).devices pW.device_id =
          some { dOnline with
                   lastSeen := some (messageTimeOf parseW pW),
                   lastMessage := some pW,
                   status := Status.ONLINE,
                   statusChangedAt :=
                     some (dOnline.statusChangedAt.getD (messageTimeOf parseW pW)) }) :=
  ⟨by decide, by decide,
    (claim_C5 600000 parseW pW (stWith dOnline) dOnline (by decide) (by decide)).1⟩

/-- Claim C8: the JS entry point never raises for any object payload —
with all four fields ranging over arbitrary JS values (missing fields
being `undefined`) the call returns normally, and when the payload is
classified faulty it is absorbed into the FAULTY/quarantine path: the
device record ends FAULTY and exactly one quarantine item is appended,
with nothing propagated to the caller. -/
theorem claim_C8 (now : Int) (parse : String → Option Int)
    (a b c v : JSValue) (st : TrackerState) :
    processMessageJS now parse (JSValue.obj a b c v) st =
      Except.ok (processMessage now parse (payloadOf (JSValue.obj a b c v)) st)
    ∧ (isMessageFaulty parse (payloadOf (JSValue.obj a b c v)) = true →
      (alGet st.devices a = none →
        alGet (processMessage now parse (payloadOf (JSValue.obj a b c v)) st).devices a =
          some { freshDevice a with
                   status := Status.FAULTY, statusChangedAt := some now })
      ∧ (∀ e, alGet st.devices a = some e →
        alGet (processMessage now parse (payloadOf (JSValue.obj a b c v)) st).devices a =
          some { e with status := Status.FAULTY, statusChangedAt := some now })
      ∧ (processMessage now parse (payloadOf (JSValue.obj a b c v)) st).quarantineQueue.items =
          st.quarantineQueue.items ++ [mkQuarantineItem now a]) := by
  constructor
  · rfl
  · intro hf
    obtain ⟨h1, h2, h3, _⟩ :=
      pm_faulty_spec now parse (payloadOf (JSValue.obj a b c v)) st hf
    exact ⟨h2, h1, h3⟩

/-- Witness for C8 at concrete inputs: an object payload with a null
voltage and an undefined timestamp is processed without an error and
quarantined. -/
theorem claim_C8_witness :
    processMessageJS 600000 parseW
        (JSValue.obj idA JSValue.undef JSValue.undef JSValue.nullV) (mkTracker 0) =
      Except.ok (processMessage 600000 parseW
        (payloadOf (JSValue.obj idA JSValue.undef JSValue.undef JSValue.nullV))
        (mkTracker 0))
    ∧ (isMessageFaulty parseW
        (payloadOf (JSValue.obj idA JSValue.undef JSValue.undef JSValue.nullV)) = true →
      (alGet (mkTracker 0).devices idA = none →
        alGet (processMessage 600000 parseW
            (payloadOf (JSValue.obj idA JSValue.undef JSValue.undef JSValue.nullV))
            (mkTracker 0)).devices idA =
          some { freshDevice idA with
                   status := Status.FAULTY, statusChangedAt := some 600000 })
      ∧ (∀ e, alGet (mkTracker 0).devices idA = some e →
        alGet (processMessage 600000 parseW
            (payloadOf (JSValue.obj idA JSValue.undef JSValue.undef JSValue.nullV))
            (mkTracker 0)).devices idA =
          some { e with status := Status.FAULTY, statusChangedAt := some 600000 })
      ∧ (processMessage 600000 parseW
          (payloadOf (JSValue.obj idA JSValue.undef JSValue.undef JSValue.nullV))
          (mkTracker 0)).quarantineQueue.items =
          (mkTracker 0).quarantineQueue.items ++ [mkQuarantineItem 600000 idA]) :=
  claim_C8 600000 parseW idA JSValue.undef JSValue.undef JSValue.nullV (mkTracker 0)

theorem checkOffline_get (now : Int) (st : TrackerState) (did : JSValue)
    (d : DeviceState) (hnd : (st.devices.map Prod.fst).Nodup)
    (hd : alGet st.devices did = some d) :
    alGet (checkOfflineDevices now st).devices did =
      some (if offlineEligible now d
            then { d with status := Status.OFFLINE, statusChangedAt := some now }
            else d) := by
  unfold checkOfflineDevices
  exact sweepFold_get now _ st did d hnd (alGet_mem_keys _ _ _ hd) hd

theorem checkOffline_queue (now : Int) (st : TrackerState)
    (hnd : (st.devices.map Prod.fst).Nodup) :
    (checkOfflineDevices now st).fallbackQueue.items =
      st.fallbackQueue.items ++
        ((st.devices.map Prod.fst).filter (eligAt now st)).map
          (fun k => mkFallbackItem now k)
    ∧ (checkOfflineDevices now st).metrics.fallbacks =
      st.metrics.fallbacks +
        ((st.devices.map Prod.fst).filter (eligAt now st)).length := by
  unfold checkOfflineDevices
  exact sweepFold_queue now _ st hnd

theorem checkOffline_keys (now : Int) (st : TrackerState) :
    (checkOfflineDevices now st).devices.map Prod.fst =
      st.devices.map Prod.fst := by
  unfold checkOfflineDevices
  exact sweepFold_keys now _ st

/-- Claim C3: a tracked device that is not OFFLINE and whose `lastSeen`
is more than five minutes before the sweep instant is transitioned to
OFFLINE with `statusChangedAt` = the sweep instant, contributes exactly
one item to the fallback queue and exactly one unit to the `fallbacks`
counter (which grows by the number of eligible devices, this one being
eligible); an immediately following sweep leaves the device record, its
fallback-queue item count, and its eligibility (hence its counter
contribution) unchanged. -/
theorem claim_C3 (now now2 : Int) (st : TrackerState) (did : JSValue)
    (d : DeviceState)
    (hnd : (st.devices.map Prod.fst).Nodup)
    (hd : alGet st.devices did = some d)
    (hstat : d.status ≠ Status.OFFLINE)
    (hstale : d.lastSeen.getD 0 < now - 5 * 60 * 1000) :
    alGet (checkOfflineDevices now st).devices did =
      some { d with status := Status.OFFLINE, statusChangedAt := some now }
    ∧ deviceItemCount (checkOfflineDevices now st).fallbackQueue did =
        deviceItemCount st.fallbackQueue did + 1
    ∧ eligAt now st did = true
    ∧ (checkOfflineDevices now st).metrics.fallbacks =
        st.metrics.fallbacks +
          ((st.devices.map Prod.fst).filter (eligAt now st)).length
    ∧ alGet (checkOfflineDevices now2 (checkOfflineDevices now st)).devices did =
        some { d with status := Status.OFFLINE, statusChangedAt := some now }
    ∧ deviceItemCount
        (checkOfflineDevices now2 (checkOfflineDevices now st)).fallbackQueue did =
        deviceItemCount (checkOfflineDevices now st).fallbackQueue did
    ∧ eligAt now2 (checkOfflineDevices now st) did = false := by
  have helig : offlineEligible now d = true := by
    unfold offlineEligible
    simp only [Bool.and_eq_true, decide_eq_true_eq]
    exact ⟨hstat, by omega⟩
  have heligAt : eligAt now st did = true := by
    unfold eligAt
    rw [hd]
    exact helig
  have hmem : did ∈ st.devices.map Prod.fst := alGet_mem_keys _ _ _ hd
  have hget1 : alGet (checkOfflineDevices now st).devices did =
      some { d with status := Status.OFFLINE, statusChangedAt := some now } := by
    rw [checkOffline_get now st did d hnd hd, if_pos helig]
  obtain ⟨hq1, hc1⟩ := checkOffline_queue now st hnd
  have hcomp : ((fun it => decide (it.deviceId = did)) ∘ fun k => mkFallbackItem now k) =
      fun k => decide (k = did) := by
    funext k
    simp [mkFallbackItem]
  have hcount1 : deviceItemCount (checkOfflineDevices now st).fallbackQueue did =
      deviceItemCount st.fallbackQueue did + 1 := by
    unfold deviceItemCount
    rw [hq1, List.countP_append, List.countP_map, hcomp,
      countP_key_filter_one _ _ _ hnd hmem heligAt]
  have hkeys : (checkOfflineDevices now st).devices.map Prod.fst =
      st.devices.map Prod.fst := checkOffline_keys now st
  have hnd1 : ((checkOfflineDevices now st).devices.map Prod.fst).Nodup := by
    rw [hkeys]
    exact hnd
  have helig2 : offlineEligible now2
      { d with status := Status.OFFLINE, statusChangedAt := some now } = false := by
    unfold offlineEligible
    simp
  have heligAt2 : eligAt now2 (checkOfflineDevices now st) did = false := by
    unfold eligAt
    rw [hget1]
    exact helig2
  have hget2 : alGet (checkOfflineDevices now2 (checkOfflineDevices now st)).devices did =
      some { d with status := Status.OFFLINE, statusChangedAt := some now } := by
    rw [checkOffline_get now2 (checkOfflineDevices now st) did _ hnd1 hget1,
      if_neg (by simp [helig2])]
  obtain ⟨hq2, _⟩ := checkOffline_queue now2 (checkOfflineDevices now st) hnd1
  have hcomp2 : ((fun it => decide (it.deviceId = did)) ∘ fun k => mkFallbackItem now2 k) =
      fun k => decide (k = did) := by
    funext k
    simp [mkFallbackItem]
  have hcount2 : deviceItemCount
      (checkOfflineDevices now2 (checkOfflineDevices now st)).fallbackQueue did =
      deviceItemCount (checkOfflineDevices now st).fallbackQueue did := by
    unfold deviceItemCount
    rw [hq2, List.countP_append, List.countP_map, hcomp2,
      countP_key_filter_zero _ _ _ heligAt2]
    omega
  exact ⟨hget1, hcount1, heligAt, hc1, hget2, hcount2, heligAt2⟩

/-- Witness for C3 at concrete inputs: a single ONLINE device last seen
at instant 0, swept at instants 600000 and 900000. -/
theorem claim_C3_witness :
    ((stWith dStale).devices.map Prod.fst).Nodup
    ∧ alGet (stWith dStale).devices idA = some dStale
    ∧ dStale.status ≠ Status.OFFLINE
    ∧ dStale.lastSeen.getD 0 < 600000 - 5 * 60 * 1000
    ∧ (alGet (checkOfflineDevices 600000 (stWith dStale)).devices idA =
        some { dStale with status := Status.OFFLINE, statusChangedAt := some 600000 }
      ∧ deviceItemCount (checkOfflineDevices 600000 (stWith dStale)).fallbackQueue idA =
          deviceItemCount (stWith dStale).fallbackQueue idA + 1
      ∧ eligAt 600000 (stWith dStale) idA = true
      ∧ (checkOfflineDevices 600000 (stWith dStale)).metrics.fallbacks =
          (stWith dStale).metrics.fallbacks +
            (((stWith dStale).devices.map Prod.fst).filter
              (eligAt 600000 (stWith dStale))).length
      ∧ alGet (checkOfflineDevices 900000
            (checkOfflineDevices 600000 (stWith dStale))).devices idA =
          some { dStale with status := Status.OFFLINE, statusChangedAt := some 600000 }
      ∧ deviceItemCount (checkOfflineDevices 900000
            (checkOfflineDevices 600000 (stWith dStale))).fallbackQueue idA =
          deviceItemCount (checkOfflineDevices 600000 (stWith dStale)).fallbackQueue idA
      ∧ eligAt 900000 (checkOfflineDevices 600000 (stWith dStale)) idA = false) :=
  ⟨by decide, by decide, by decide, by decide,
    claim_C3 600000 900000 (stWith dStale) idA dStale
      (by decide) (by decide) (by decide) (by decide)⟩

/-- Claim C6: a tracked device that never received a valid message
(`lastSeen` unset, coercing to instant 0 in the comparison) and is not
OFFLINE is eligible on any sweep whose wall clock exceeds the 5-minute
threshold — in particular on the first sweep after its creation — and is
then transitioned to OFFLINE with one fallback-queue item appended and
the `fallbacks` counter incremented. -/
theorem claim_C6 (now : Int) (st : TrackerState) (did : JSValue)
    (d : DeviceState)
    (hnd : (st.devices.map Prod.fst).Nodup)
    (hd : alGet st.devices did = some d)
    (hnever : d.lastSeen = none)
    (hstat : d.status ≠ Status.OFFLINE)
    (hepoch : 5 * 60 * 1000 < now) :
    eligAt now st did = true
    ∧ alGet (checkOfflineDevices now st).devices did =
        some { d with status := Status.OFFLINE, statusChangedAt := some now }
    ∧ deviceItemCount (checkOfflineDevices now st).fallbackQueue did =
        deviceItemCount st.fallbackQueue did + 1
    ∧ (checkOfflineDevices now st).metrics.fallbacks =
        st.metrics.fallbacks +
          ((st.devices.map Prod.fst).filter (eligAt now st)).length := by
  have helig : offlineEligible now d = true := by
    unfold offlineEligible
    simp only [Bool.and_eq_true, decide_eq_true_eq]
    refine ⟨hstat, ?_⟩
    rw [hnever]
    simp only [Option.getD_none]
    omega
  have heligAt : eligAt now st did = true := by
    unfold eligAt
    rw [hd]
    exact helig
  have hmem : did ∈ st.devices.map Prod.fst := alGet_mem_keys _ _ _ hd
  have hget1 : alGet (checkOfflineDevices now st).devices did =
      some { d with status := Status.OFFLINE, statusChangedAt := some now } := by
    rw [checkOffline_get now st did d hnd hd, if_pos helig]
  obtain ⟨hq1, hc1⟩ := checkOffline_queue now st hnd
  have hcomp : ((fun it => decide (it.deviceId = did)) ∘ fun k => mkFallbackItem now k) =
      fun k => decide (k = did) := by
    funext k
    simp [mkFallbackItem]
  have hcount1 : deviceItemCount (checkOfflineDevices now st).fallbackQueue did =
      deviceItemCount st.fallbackQueue did + 1 := by
    unfold deviceItemCount
    rw [hq1, List.countP_append, List.countP_map, hcomp,
      countP_key_filter_one _ _ _ hnd hmem heligAt]
  exact ⟨heligAt, hget1, hcount1, hc1⟩

/-- Witness for C6 at concrete inputs: a device created by a faulty
message (so `lastSeen` is unset and its status is FAULTY) is flagged on
the very next sweep, at instant 1000000. -/
theorem claim_C6_witness :
    (((processMessage 600000 parseW pLow (mkTracker 0)).devices.map Prod.fst).Nodup)
    ∧ alGet (processMessage 600000 parseW pLow (mkTracker 0)).devices idA =
        some ⟨idA, Status.FAULTY, none, some 600000, none⟩
    ∧ (⟨idA, Status.FAULTY, none, some 600000, none⟩ : DeviceState).lastSeen = none
    ∧ (⟨idA, Status.FAULTY, none, some 600000, none⟩ : DeviceState).status ≠ Status.OFFLINE
    ∧ (5 * 60 * 1000 : Int) < 1000000
    ∧ (eligAt 1000000 (processMessage 600000 parseW pLow (mkTracker 0)) idA = true
      ∧ alGet (checkOfflineDevices 1000000
          (processMessage 600000 parseW pLow (mkTracker 0))).devices idA =
        some { (⟨idA, Status.FAULTY, none, some 600000, none⟩ : DeviceState) with
                 status := Status.OFFLINE, statusChangedAt := some 1000000 }
      ∧ deviceItemCount (checkOfflineDevices 1000000
          (processMessage 600000 parseW pLow (mkTracker 0))).fallbackQueue idA =
        deviceItemCount (processMessage 600000 parseW pLow (mkTracker 0)).fallbackQueue idA + 1
      ∧ (checkOfflineDevices 1000000
          (processMessage 600000 parseW pLow (mkTracker 0))).metrics.fallbacks =
        (processMessage 600000 parseW pLow (mkTracker 0)).metrics.fallbacks +
          (((processMessage 600000 parseW pLow (mkTracker 0)).devices.map Prod.fst).filter
            (eligAt 1000000 (processMessage 600000 parseW pLow (mkTracker 0)))).length) :=
  ⟨by decide, by decide, by decide, by decide, by decide,
    claim_C6 1000000 (processMessage 600000 parseW pLow (mkTracker 0)) idA
      ⟨idA, Status.FAULTY, none, some 600000, none⟩
      (by decide) (by decide) (by decide) (by decide) (by decide)⟩

/-- Claim C7: starting from a key with stored count 0, the result of the
n-plus-first `retry(k, 3)` call is true exactly when fewer than 3 calls
have gone before (so calls 1 through 3 return true and every later call
returns false), the stored count after n calls is `min n 3` (each
true-returning call increments it by one, false-returning calls leave it
alone), `getRetryCount` always equals the number of true-returning calls,
and the count never exceeds the cap of 3. -/
theorem claim_C7 (q : QueueState) (k : JSValue)
    (hfresh : q.getRetryCount k = 0) :
    (∀ n, ((retryIter q k 3 n).retry k 3).1 = decide (n < 3))
    ∧ (∀ n, (retryIter q k 3 n).getRetryCount k = min n 3)
    ∧ (∀ n, (retryIter q k 3 n).getRetryCount k = trueCalls q k 3 n)
    ∧ (∀ n, (retryIter q k 3 n).getRetryCount k ≤ 3) := by
  refine ⟨retryIter_result q k hfresh, retryIter_count q k hfresh, ?_, ?_⟩
  · intro n
    rw [retryIter_count q k hfresh n, trueCalls_eq q k hfresh n]
  · intro n
    rw [retryIter_count q k hfresh n]
    omega

/-- Witness for C7 at concrete inputs: after 5 calls on a fresh key the
next call is ineligible and the stored count is 3, equal to the number of
true-returning calls. -/
theorem claim_C7_witness :
    (mkQueue ("fallback")).getRetryCount idA = 0
    ∧ ((retryIter (mkQueue ("fallback")) idA 3 5).retry idA 3).1 = decide (5 < 3)
    ∧ (retryIter (mkQueue ("fallback")) idA 3 5).getRetryCount idA = min 5 3
    ∧ (retryIter (mkQueue ("fallback")) idA 3 5).getRetryCount idA =
        trueCalls (mkQueue ("fallback")) idA 3 5
    ∧ (retryIter (mkQueue ("fallback")) idA 3 5).getRetryCount idA ≤ 3 :=
  ⟨by decide,
    (claim_C7 (mkQueue ("fallback")) idA (by decide)).1 5,
    (claim_C7 (mkQueue ("fallback")) idA (by decide)).2.1 5,
    (claim_C7 (mkQueue ("fallback")) idA (by decide)).2.2.1 5,
    (claim_C7 (mkQueue ("fallback")) idA (by decide)).2.2.2 5⟩

/-- Claim C9: every call of the fallback drain terminates after dequeuing
exactly `min (queue length) 100` items — the pending list loses its first
100 items at most, the processed counter grows by `min (queue length) 100
≤ 100`, and the delayed re-enqueues scheduled during the call are returned
as tasks rather than run inside the loop. -/
theorem claim_C9 (st : TrackerState) :
    (processFallbackRetries st).1.fallbackQueue.items =
      st.fallbackQueue.items.drop 100
    ∧ (processFallbackRetries st).1.fallbackQueue.processed =
        st.fallbackQueue.processed + min st.fallbackQueue.items.length 100
    ∧ min st.fallbackQueue.items.length 100 ≤ 100 := by
  obtain ⟨hi, hp⟩ := drain_spec 100 st 0 [] rfl
  unfold processFallbackRetries
  exact ⟨hi, hp, by omega⟩

/-- Claim C10: there is a payload accepted as non-faulty whose voltage is
NaN — NaN is a JS number and `NaN < 50` is false, so the voltage check
passes — and processing it marks the device ONLINE rather than FAULTY. -/
theorem claim_C10 :
    JSNum.nan.jsLt (JSNum.fin 50) = false
    ∧ isMessageFaulty parseW pNaN = false
    ∧ alGet (processMessage 600000 parseW pNaN (mkTracker 0)).devices idA =
        some ⟨idA, Status.ONLINE, some 600000, some 600000, some pNaN⟩ := by
  decide
